import Mathlib

/-!
Verification development for the JOS kernel monitor (`kern/monitor.c`).

The C code is shallowly embedded: machine words are `Nat` reduced modulo
`2 ^ 32` where overflow matters, raw memory is a function `Nat → Nat`,
external collaborators (the console, the line reader, the symbol resolver
`debuginfo_eip`, the page-table walker `pgdir_walk`) are parameters, and
each `cprintf` call is recorded as a structured `Output` event carrying the
values the call would print.
-/

namespace Monitor

/-- `2 ^ 32`: the modulus of 32-bit machine arithmetic (`uint32_t`,
`uintptr_t` in the source). -/
def M32 : Nat := 4294967296

/-- Modelled from the spec: the page size of the paging architecture
(`PGSIZE` from the memory-layout headers, which are not under `src/`);
the spec's example `showmappings 0x0 0xFFF` being exactly one page pins
it to 4096. -/
def PGSIZE : Nat := 4096

/-- Modelled from the spec: `PGSHIFT` (log2 of the page size) from the
memory-layout headers, not under `src/`. -/
def PGSHIFT : Nat := 12

/-- Modelled from the spec: the present bit `PTE_P` of a leaf page-table
entry; the source's `*pte & PTE_P` printed as the `p` field pins it to
bit 0. -/
def PTE_P : Nat := 1

/-- Modelled from the spec: the writable bit `PTE_W`; the source's
`(*pte & PTE_W) >> 1` pins it to bit 1. -/
def PTE_W : Nat := 2

/-- Modelled from the spec: the user-accessible bit `PTE_U`; the source's
`(*pte & PTE_U) >> 2` pins it to bit 2. -/
def PTE_U : Nat := 4

/-- Modelled from the spec: `PTE_ADDR` masks off the low 12 offset bits of
a (32-bit) page-table entry, leaving the physical page address. -/
def PTE_ADDR (pte : Nat) : Nat := pte % M32 - pte % M32 % PGSIZE

/-- `MAXARGS` from `kern/monitor.c` line 136. -/
def MAXARGS : Nat := 16

/-- `strchr(WHITESPACE, c)` with `WHITESPACE = "\t\r\n "`
(`kern/monitor.c` line 135). -/
def isWS (c : Char) : Bool := c = '\t' || c = '\r' || c = '\n' || c = ' '

/-- One console event per `cprintf` call of `kern/monitor.c`, carrying the
computed values that the call passes to the console collaborator. -/
inductive Output where
  /-- `"%s - %s\n"` per command, from `mon_help`. -/
  | helpLine (name desc : String)
  /-- `"Special kernel symbols:\n"`, from `mon_kerninfo`. -/
  | kerninfoHeader
  /-- `"  _start  %08x (phys)\n"`, from `mon_kerninfo`. -/
  | kerninfoStart (v : Nat)
  /-- one of the `"(virt) ... (phys)"` symbol lines of `mon_kerninfo`. -/
  | kerninfoSym (virt phys : Nat)
  /-- the `"Kernel executable memory footprint"` line of `mon_kerninfo`. -/
  | kerninfoFootprint (kb : Nat)
  /-- `"Stack backtrace:\n"`, from `mon_backtrace`. -/
  | backtraceHeader
  /-- `"  ebp %08x  eip %08x  args ...\n"`, from `mon_backtrace`. -/
  | frameLine (ebp eip a1 a2 a3 a4 a5 : Nat)
  /-- `"         %s:%d:"`, from `mon_backtrace` (file and line). -/
  | symLoc (file : String) (line : Nat)
  /-- `"  %.*s"`, from `mon_backtrace` (length-bounded function name). -/
  | symName (name : String)
  /-- `"+%d\n"`, from `mon_backtrace` (return address minus function start). -/
  | symOffset (off : Nat)
  /-- `"not found\n"`, from `mon_backtrace`. -/
  | symNotFound
  /-- `"error: showmappings needs 2 parameters\n"`. -/
  | errNeedTwoParams
  /-- `"error: va_end < va_start\n"`. -/
  | errEndLtStart
  /-- `"vapaddr:0x%x --> paddr:0x%x, p = %d, w = %d, u = %d\n"`. -/
  | mappedLine (va pa p w u : Nat)
  /-- `"vaddr:0x%x is not mapped\n"`. -/
  | notMappedLine (va : Nat)
  /-- `"Too many arguments (max %d)\n"`, from `runcmd`. -/
  | tooManyArgs
  /-- `"Unknown command '%s'\n"`, from `runcmd`. -/
  | unknownCmd (name : String)
deriving DecidableEq

/-! ## Tokenizer (`runcmd`, kern/monitor.c lines 145-164) -/

/-- Result of the argument-parsing loop of `runcmd`: either the collected
`argv`, or the abort taken when a 16th token is found
(`kern/monitor.c` lines 156-159). -/
inductive ParseResult where
  | ok (argv : List String)
  | tooMany
deriving DecidableEq

/-- The argument-parsing loop of `runcmd` (`kern/monitor.c` lines 146-164):
gobble whitespace character by character; at end of buffer stop with the
collected arguments; otherwise, if `argc == MAXARGS-1` already, report too
many arguments; otherwise save the token starting here and scan past it. -/
def runcmdParse : List Char → List String → ParseResult
  | [], acc => ParseResult.ok acc
  | c :: cs, acc =>
    if h : isWS c then
      runcmdParse cs acc
    else if acc.length = MAXARGS - 1 then
      ParseResult.tooMany
    else
      runcmdParse (List.dropWhile (fun x => !isWS x) (c :: cs))
        (acc ++ [String.mk (List.takeWhile (fun x => !isWS x) (c :: cs))])
  termination_by cs _ => cs.length
  decreasing_by
  · simp +arith
  · rw [List.dropWhile_cons, if_pos (by simp [h])]
    exact Nat.lt_succ_of_le (List.dropWhile_sublist _).length_le

/-- Follows the spec's words, for comparison with `runcmdParse`: split the
line on runs of whitespace into the list of (nonempty) tokens, with no
bound on their number. -/
def specTokens : List Char → List String
  | [] => []
  | c :: cs =>
    if h : isWS c then
      specTokens cs
    else
      String.mk (List.takeWhile (fun x => !isWS x) (c :: cs)) ::
        specTokens (List.dropWhile (fun x => !isWS x) (c :: cs))
  termination_by cs => cs.length
  decreasing_by
  · simp +arith
  · rw [List.dropWhile_cons, if_pos (by simp [h])]
    exact Nat.lt_succ_of_le (List.dropWhile_sublist _).length_le

/-! ## Stack unwinder (`mon_backtrace`, kern/monitor.c lines 62-93) -/

/-- A raw 32-bit memory read `*(uint32_t *)a`: the address and the value
read both live in 32-bit machine arithmetic. -/
def rd (mem : Nat → Nat) (a : Nat) : Nat := mem (a % M32) % M32

/-- The chain of saved frame pointers: `ebpChain mem ebp0 i` is the value
of `ebp` at the start of the `i`-th iteration of the `for` loop of
`mon_backtrace` (`ebp = *(uint32_t *)ebp` to advance). -/
def ebpChain (mem : Nat → Nat) (ebp0 : Nat) : Nat → Nat
  | 0 => ebp0
  | n + 1 => rd mem (ebpChain mem ebp0 n)

/-- The per-iteration data of `mon_backtrace` (`kern/monitor.c` lines
66-79): the frame pointer, the return address read at `ebp+4`, and the five
raw argument words read at `ebp+8` … `ebp+24`. -/
structure Frame where
  ebp : Nat
  eip : Nat
  arg1 : Nat
  arg2 : Nat
  arg3 : Nat
  arg4 : Nat
  arg5 : Nat
deriving DecidableEq

/-- The reads `mon_backtrace` performs for the frame at `ebp`
(`kern/monitor.c` lines 74-79). -/
def readFrame (mem : Nat → Nat) (ebp : Nat) : Frame :=
  ⟨ebp, rd mem (ebp + 4), rd mem (ebp + 8), rd mem (ebp + 12),
    rd mem (ebp + 16), rd mem (ebp + 20), rd mem (ebp + 24)⟩

/-- The addresses `mon_backtrace` dereferences while processing the frame
at `ebp`: `ebp+4` for `eip`, `ebp+8` … `ebp+24` for the five argument
words, and `ebp` itself for the loop advance `ebp = *(uint32_t *)ebp`. -/
def frameReads (ebp : Nat) : List Nat :=
  [ebp + 4, ebp + 8, ebp + 12, ebp + 16, ebp + 20, ebp + 24, ebp]

/-- The frame-pointer walk of `mon_backtrace` (`kern/monitor.c` line 72):
starting from `ebp`, loop while `ebp != 0`, collecting each iteration's
frame data and the list of every address dereferenced, advancing through
the saved frame pointer. `fuel` bounds the number of iterations modelled;
`none` means the chain did not reach the zero sentinel within `fuel`
frames (the C loop would still be running, or faulting on a corrupted
chain). -/
def backtraceWalk (mem : Nat → Nat) (fuel : Nat) (ebp : Nat) :
    Option (List Frame × List Nat) :=
  if ebp = 0 then some ([], [])
  else
    match fuel with
    | 0 => none
    | f + 1 =>
      match backtraceWalk mem f (rd mem ebp) with
      | some (fs, rs) => some (readFrame mem ebp :: fs, frameReads ebp ++ rs)
      | none => none

/-- `struct Eipdebuginfo` as consumed by `mon_backtrace`: the fields the
symbol-resolution collaborator `debuginfo_eip` fills in. -/
structure Eipdebuginfo where
  eip_file : String
  eip_line : Nat
  eip_fn_name : String
  eip_fn_namelen : Nat
  eip_fn_addr : Nat
deriving DecidableEq

/-- The console output `mon_backtrace` emits for one frame
(`kern/monitor.c` lines 81-90): the frame line, then — if the resolver
succeeds — file, line, the function name printed through `%.*s` bounded by
`eip_fn_namelen`, and the 32-bit offset `eip - info.eip_fn_addr`;
otherwise the `not found` marker. -/
def frameOutput (resolver : Nat → Option Eipdebuginfo) (f : Frame) :
    List Output :=
  Output.frameLine f.ebp f.eip f.arg1 f.arg2 f.arg3 f.arg4 f.arg5 ::
    match resolver f.eip with
    | some info =>
      [Output.symLoc info.eip_file info.eip_line,
       Output.symName (String.mk (List.take info.eip_fn_namelen info.eip_fn_name.data)),
       Output.symOffset ((f.eip + M32 - info.eip_fn_addr) % M32)]
    | none => [Output.symNotFound]

/-! ## Mapping inspector (`mon_showmappings`, kern/monitor.c lines 95-131) -/

/-- Is `c` a hexadecimal digit? -/
def isHexDigit (c : Char) : Bool :=
  ('0' ≤ c && c ≤ '9') || ('a' ≤ c && c ≤ 'f') || ('A' ≤ c && c ≤ 'F')

/-- The value of a hexadecimal digit. -/
def hexDigitVal (c : Char) : Nat :=
  if '0' ≤ c && c ≤ '9' then c.toNat - '0'.toNat
  else if 'a' ≤ c && c ≤ 'f' then c.toNat - 'a'.toNat + 10
  else if 'A' ≤ c && c ≤ 'F' then c.toNat - 'A'.toNat + 10
  else 0

/-- Strip an optional `0x`/`0X` marker, accepted by a base-16 parse. -/
def strip0x : List Char → List Char
  | '0' :: 'x' :: cs => cs
  | '0' :: 'X' :: cs => cs
  | cs => cs

/-- Is `s` valid hexadecimal text: after the optional `0x` marker, a
nonempty run of hexadecimal digits? -/
def validHex16 (s : String) : Bool :=
  let t := strip0x s.data
  !t.isEmpty && t.all isHexDigit

/-- Modelled from the spec: the numeric parsing collaborator
`strtol(arg, NULL, 16)` (its definition is not under `src/`); per the
spec's contract, valid base-16 text parses to its value and "malformed
text parses as zero". -/
def strtol16 (s : String) : Nat :=
  if validHex16 s then (strip0x s.data).foldl (fun acc c => acc * 16 + hexDigitVal c) 0
  else 0

/-- Modelled from the spec: the `ROUNDUP` macro from the types header (not
under `src/`): "round the byte span up to a whole number of pages". -/
def roundup (a n : Nat) : Nat := (a + n - 1) / n * n

/-- Conversion of a 32-bit unsigned value to a (two's complement) signed
`int`, as in the assignment `npages = ROUNDUP(...)` of `kern/monitor.c`
line 113. -/
def toInt32 (a : Nat) : Int :=
  if a % M32 < 2 ^ 31 then ((a % M32 : Nat) : Int)
  else ((a % M32 : Nat) : Int) - (M32 : Nat)

/-- The page count computed by `mon_showmappings` (`kern/monitor.c` lines
113-114): the 32-bit byte span `va_end - va_start + 1`, rounded up to a
page multiple, stored into the signed `int npages`, then shifted right by
`PGSHIFT` (an arithmetic shift on a signed `int`, i.e. flooring division
by `2 ^ PGSHIFT`; `/` on `Int` with a positive divisor is exactly that). -/
def npagesOf (va_start va_end : Nat) : Int :=
  toInt32 (roundup ((va_end + M32 - va_start + 1) % M32) PGSIZE) / (2 ^ PGSHIFT : Nat)

/-- The per-page loop of `mon_showmappings` (`kern/monitor.c` lines
116-126), run for `n` iterations from virtual address `va`: each iteration
queries the read-only page-table walk `pgdir_walk(kern_pgdir, va, 0)`
(recorded in the second component), prints the mapped line when the entry
exists and its present bit is set and the not-mapped line otherwise, and
advances `va` by one page in 32-bit arithmetic. -/
def showmappingsLoop (walk : Nat → Option Nat) :
    Nat → Nat → List Output × List Nat
  | _, 0 => ([], [])
  | va, n + 1 =>
    let line :=
      match walk va with
      | some pte =>
        if pte &&& PTE_P ≠ 0 then
          Output.mappedLine va (PTE_ADDR pte) (pte &&& PTE_P)
            ((pte &&& PTE_W) >>> 1) ((pte &&& PTE_U) >>> 2)
        else Output.notMappedLine va
      | none => Output.notMappedLine va
    let rest := showmappingsLoop walk ((va + PGSIZE) % M32) n
    (line :: rest.1, va :: rest.2)

/-- A run of `mon_showmappings`: the console output, the list of virtual
addresses passed to the page-table-walk primitive, and the return value. -/
structure SMResult where
  output : List Output
  walkCalls : List Nat
  ret : Int
deriving DecidableEq

/-- `mon_showmappings` after parsing (`kern/monitor.c` lines 109-127):
reject `va_end < va_start`, otherwise compute the page count and run the
per-page loop. -/
def showmappingsRange (walk : Nat → Option Nat) (va_start va_end : Nat) :
    SMResult :=
  if va_end < va_start then ⟨[Output.errEndLtStart], [], 0⟩
  else
    ⟨(showmappingsLoop walk va_start (npagesOf va_start va_end).toNat).1,
     (showmappingsLoop walk va_start (npagesOf va_start va_end).toNat).2, 0⟩

/-- `mon_showmappings` (`kern/monitor.c` lines 95-131): with `argc != 3`
report the usage error; otherwise parse both arguments in base 16 (cast to
the 32-bit `uintptr_t`) and process the range. Always returns 0. -/
def showmappingsMain (walk : Nat → Option Nat) (argv : List String) :
    SMResult :=
  match argv with
  | [_, a1, a2] =>
    showmappingsRange walk (strtol16 a1 % M32) (strtol16 a2 % M32)
  | _ => ⟨[Output.errNeedTwoParams], [], 0⟩

/-! ## Command table, dispatcher and monitor loop
(kern/monitor.c lines 19-32 and 133-194) -/

/-- The collaborators every handler can reach: raw memory and the initial
`ebp` for the unwinder (with a fuel bound standing in for the unbounded C
loop), the symbol resolver, the page-table walker, and the kernel linker
symbols with `KERNBASE` for `mon_kerninfo` (their values live outside
`src/`, so they stay abstract). -/
structure Env where
  mem : Nat → Nat
  ebp0 : Nat
  btFuel : Nat
  resolver : Nat → Option Eipdebuginfo
  walk : Nat → Option Nat
  kernbase : Nat
  sym_start : Nat
  sym_entry : Nat
  sym_etext : Nat
  sym_edata : Nat
  sym_end : Nat

/-- The names and descriptions of the registered commands
(`kern/monitor.c` lines 26-31), split out so that `mon_help` can print
them without the definition of the table being circular. -/
def commandDescs : List (String × String) :=
  [("help", "Display this list of commands"),
   ("kerninfo", "Display information about the kernel"),
   ("backtrace", "Display the stack backtrace"),
   ("showmappings", "Show the mappings info")]

/-- `mon_help` (`kern/monitor.c` lines 36-44): print one line per table
entry; return 0. -/
def mon_help (_env : Env) (_argv : List String) :
    Option (List Output × Int) :=
  some (commandDescs.map (fun c => Output.helpLine c.1 c.2), 0)

/-- `mon_kerninfo` (`kern/monitor.c` lines 46-60): print the linker
symbols, their physical counterparts (`x - KERNBASE` in 32-bit
arithmetic), and the footprint `ROUNDUP(end - entry, 1024) / 1024`;
return 0. -/
def mon_kerninfo (env : Env) (_argv : List String) :
    Option (List Output × Int) :=
  some ([Output.kerninfoHeader,
    Output.kerninfoStart env.sym_start,
    Output.kerninfoSym env.sym_entry ((env.sym_entry + M32 - env.kernbase) % M32),
    Output.kerninfoSym env.sym_etext ((env.sym_etext + M32 - env.kernbase) % M32),
    Output.kerninfoSym env.sym_edata ((env.sym_edata + M32 - env.kernbase) % M32),
    Output.kerninfoSym env.sym_end ((env.sym_end + M32 - env.kernbase) % M32),
    Output.kerninfoFootprint
      (roundup ((env.sym_end + M32 - env.sym_entry) % M32) 1024 / 1024)], 0)

/-- `mon_backtrace` (`kern/monitor.c` lines 62-93): print the header, walk
the frame-pointer chain from `read_ebp()`, and print each frame's line
followed by its symbol information; return 0. `none` when the chain does
not reach the sentinel within the modelled fuel. -/
def mon_backtrace (env : Env) (_argv : List String) :
    Option (List Output × Int) :=
  match backtraceWalk env.mem env.btFuel (env.ebp0 % M32) with
  | some (fs, _) =>
    some (Output.backtraceHeader :: (fs.map (frameOutput env.resolver)).flatten, 0)
  | none => none

/-- `mon_showmappings` as a table entry (`kern/monitor.c` lines 95-131). -/
def mon_showmappings (env : Env) (argv : List String) :
    Option (List Output × Int) :=
  some ((showmappingsMain env.walk argv).output, (showmappingsMain env.walk argv).ret)

/-- `struct Command` (`kern/monitor.c` lines 19-24). -/
structure Command where
  name : String
  desc : String
  func : Env → List String → Option (List Output × Int)

/-- The registered command table (`kern/monitor.c` lines 26-31). -/
def commands : List Command :=
  [⟨"help", "Display this list of commands", mon_help⟩,
   ⟨"kerninfo", "Display information about the kernel", mon_kerninfo⟩,
   ⟨"backtrace", "Display the stack backtrace", mon_backtrace⟩,
   ⟨"showmappings", "Show the mappings info", mon_showmappings⟩]

/-- The linear scan of the command table (`kern/monitor.c` lines
169-172). -/
def findCommand (s : String) : List Command → Option Command
  | [] => none
  | c :: cs => if s = c.name then some c else findCommand s cs

/-- The lookup-and-invoke part of `runcmd` (`kern/monitor.c` lines
166-174): an empty line is a silent no-op returning 0; a matching command
runs its handler and propagates the handler's return value; otherwise the
unknown-command message is printed and 0 returned. -/
def dispatchArgs (env : Env) (argv : List String) :
    Option (List Output × Int) :=
  match argv with
  | [] => some ([], 0)
  | cmd :: _ =>
    match findCommand cmd commands with
    | some c => c.func env argv
    | none => some ([Output.unknownCmd cmd], 0)

/-- `runcmd` (`kern/monitor.c` lines 138-175): tokenize the buffer; on the
too-many-arguments abort print the error and return 0; otherwise dispatch
the collected `argv`. -/
def runcmd (env : Env) (buf : List Char) : Option (List Output × Int) :=
  match runcmdParse buf [] with
  | ParseResult.tooMany => some ([Output.tooManyArgs], 0)
  | ParseResult.ok argv => dispatchArgs env argv

/-- How a modelled run of the monitor read loop ends. -/
inductive MonitorResult where
  /-- a handler returned a negative value and the loop `break`s. -/
  | exited
  /-- the modelled input stream was exhausted with the loop still
  running. -/
  | inputEnded
  /-- a `backtrace` walk did not finish within the modelled fuel. -/
  | fuelOut
deriving DecidableEq

/-- The read loop of `monitor` (`kern/monitor.c` lines 188-193) over a
stream of `readline` results (`none` is the NULL return, on which the loop
just reads again): run `runcmd` on each line and `break` exactly when it
returns a negative value. -/
def monitorLoop (env : Env) : List (Option (List Char)) → MonitorResult
  | [] => MonitorResult.inputEnded
  | none :: rest => monitorLoop env rest
  | some buf :: rest =>
    match runcmd env buf with
    | none => MonitorResult.fuelOut
    | some (_, r) => if r < 0 then MonitorResult.exited else monitorLoop env rest

/-! ## Concrete data for evaluating the model -/

/-- A concrete memory image holding a two-frame chain:
`4096 → 8192 → 0`, every other word zero. -/
def mem2 : Nat → Nat := fun a => if a = 4096 then 8192 else 0

/-- A concrete environment: the two-frame memory above, `ebp0 = 4096`,
no symbol information, an empty page table, and all kernel symbols 0. -/
def env0 : Env :=
  ⟨mem2, 4096, 2, fun _ => none, fun _ => none, 0, 0, 0, 0, 0, 0⟩

/-- A concrete symbol-resolution record. -/
def info0 : Eipdebuginfo := ⟨"kern/monitor.c", 10, "monitor", 7, 100⟩

/-- A resolver that always succeeds with `info0`. -/
def res0 : Nat → Option Eipdebuginfo := fun _ => some info0

/-- A concrete stack frame with return address 160. -/
def frame0 : Frame := ⟨4096, 160, 1, 2, 3, 4, 5⟩

/-! ## Tokenizer lemmas -/

/-- Every token produced by whitespace splitting is nonempty. -/
theorem specTokens_ne_empty :
    ∀ (cs : List Char) (t : String), t ∈ specTokens cs → t ≠ "" := by
  intro cs
  induction cs using specTokens.induct with
  | case1 =>
    intro t ht
    simp [specTokens] at ht
  | case2 c cs h ih =>
    intro t ht
    rw [specTokens, dif_pos h] at ht
    exact ih t ht
  | case3 c cs h ih =>
    intro t ht
    rw [specTokens, dif_neg h] at ht
    rcases List.mem_cons.mp ht with h1 | h1
    · subst h1
      intro he
      have hd := congrArg String.data he
      rw [@List.takeWhile_cons_of_pos _ (fun x => !isWS x) c cs (by simp [h])] at hd
      simp at hd
    · exact ih t h1

/-- The parsing loop of `runcmd` against the spec-level splitter: starting
with `acc` already-collected arguments (at most 15), it aborts exactly
when the total token count would exceed 15, and otherwise collects all the
tokens. -/
theorem runcmdParse_eq :
    ∀ (cs : List Char) (acc : List String), acc.length ≤ MAXARGS - 1 →
      runcmdParse cs acc =
        if MAXARGS ≤ acc.length + (specTokens cs).length then ParseResult.tooMany
        else ParseResult.ok (acc ++ specTokens cs) := by
  intro cs acc
  induction cs, acc using runcmdParse.induct with
  | case1 acc =>
    intro h
    simp only [MAXARGS] at h
    rw [runcmdParse]
    simp only [specTokens, List.length_nil, Nat.add_zero, List.append_nil, MAXARGS]
    rw [if_neg (by omega)]
  | case2 c cs acc h ih =>
    intro hlen
    rw [runcmdParse, dif_pos h, specTokens, dif_pos h]
    exact ih hlen
  | case3 c cs acc h heq =>
    intro _
    rw [runcmdParse, dif_neg h, if_pos heq, specTokens, dif_neg h]
    rw [if_pos]
    simp only [List.length_cons, MAXARGS] at heq ⊢
    omega
  | case4 c cs acc h heq ih =>
    intro hlen
    simp only [MAXARGS] at hlen heq
    rw [runcmdParse, dif_neg h, if_neg (by simp only [MAXARGS]; omega),
      specTokens, dif_neg h]
    rw [ih (by simp only [MAXARGS, List.length_append, List.length_cons,
      List.length_nil]; omega)]
    simp only [List.length_append, List.length_cons, List.length_nil]
    split_ifs with h1 h2 h2
    · rfl
    · omega
    · omega
    · simp

/-! ## Mapping-inspector lemmas -/

/-- As long as the addresses stay below `2 ^ 32`, the per-page loop
queries the walk primitive at `va`, `va + PGSIZE`, …, one page step per
iteration. -/
theorem showmappingsLoop_calls (walk : Nat → Option Nat) :
    ∀ (n va : Nat), (∀ i, i < n → va + i * PGSIZE < M32) →
      (showmappingsLoop walk va n).2 =
        (List.range n).map (fun i => va + i * PGSIZE) := by
  intro n
  induction n with
  | zero => intro va _; simp [showmappingsLoop]
  | succ m ih =>
    intro va h
    rw [List.range_succ_eq_map]
    simp only [showmappingsLoop, List.map_cons, List.map_map, Nat.zero_mul,
      Nat.add_zero]
    congr 1
    cases m with
    | zero => simp [showmappingsLoop]
    | succ k =>
      have hstep : (va + PGSIZE) % M32 = va + PGSIZE := by
        have h1 := h 1 (by omega)
        rw [Nat.one_mul] at h1
        exact Nat.mod_eq_of_lt h1
      rw [hstep, ih (va + PGSIZE)
        (fun i hi => by have := h (i + 1) (by omega); simp only [PGSIZE] at *; omega)]
      apply List.map_congr_left
      intro i _
      simp only [Function.comp, Nat.succ_eq_add_one]
      ring

/-- The page count of `mon_showmappings` on a well-behaved range: when the
byte span (rounded up to pages) stays below `2 ^ 31`, the signed-`int`
detour is harmless and the count is the exact number of pages covering the
span. -/
theorem npagesOf_eq (s e : Nat) (hse : s ≤ e) (he : e < M32)
    (hsmall : e - s + 1 ≤ 2 ^ 31 - PGSIZE) :
    npagesOf s e = ((e - s + 1 + (PGSIZE - 1)) / PGSIZE : Nat) := by
  have he' : e < 4294967296 := by simpa [M32] using he
  have hsmall' : e - s + 1 ≤ 2147479552 := by
    have h1 := hsmall
    simp only [PGSIZE] at h1
    norm_num at h1
    exact h1
  simp only [npagesOf, toInt32, roundup, M32, PGSIZE, PGSHIFT]
  norm_num
  have hspan : (e + 4294967296 - s + 1) % 4294967296 = e - s + 1 := by omega
  rw [hspan]
  rw [if_pos (by omega)]
  omega

/-- The page count of `mon_showmappings` on an overflowing range: when the
byte span is at least `2 ^ 31`, the value stored in the signed `int
npages` is zero or negative, so the arithmetic right shift keeps it
nonpositive. -/
theorem npagesOf_nonpos (s e : Nat) (hse : s ≤ e) (he : e < M32)
    (hbig : 2 ^ 31 ≤ e - s + 1) :
    npagesOf s e ≤ 0 := by
  have he' : e < 4294967296 := by simpa [M32] using he
  have hbig' : 2147483648 ≤ e - s + 1 := by
    have h1 := hbig
    norm_num at h1
    exact h1
  simp only [npagesOf, toInt32, roundup, M32, PGSIZE, PGSHIFT]
  norm_num
  split_ifs with hlt
  · omega
  · omega

/-! ## Stack-unwinder lemmas -/

/-- Shifting the start of the frame-pointer chain by one advance. -/
theorem ebpChain_shift (mem : Nat → Nat) (ebp0 : Nat) :
    ∀ n, ebpChain mem ebp0 (n + 1) = ebpChain mem (rd mem ebp0) n := by
  intro n
  induction n with
  | zero => rfl
  | succ k ih =>
    show rd mem (ebpChain mem ebp0 (k + 1)) = _
    rw [ih]
    rfl

/-- The frame-pointer walk on a chain that reaches the zero sentinel after
exactly `N` frames: it succeeds, collects exactly the `N` frames read off
the chain, and dereferences exactly the seven fixed offsets of each of
those `N` frames, in order. -/
theorem backtraceWalk_spec (mem : Nat → Nat) :
    ∀ (N fuel ebp0 : Nat), ebpChain mem ebp0 N = 0 →
      (∀ i, i < N → ebpChain mem ebp0 i ≠ 0) → N ≤ fuel →
      backtraceWalk mem fuel ebp0 =
        some ((List.range N).map (fun i => readFrame mem (ebpChain mem ebp0 i)),
          ((List.range N).map (fun i => frameReads (ebpChain mem ebp0 i))).flatten) := by
  intro N
  induction N with
  | zero =>
    intro fuel ebp0 h0 _ _
    have : ebp0 = 0 := h0
    rw [backtraceWalk.eq_def, if_pos this]
    simp
  | succ n ih =>
    intro fuel ebp0 h0 hnz hfuel
    have hne : ebp0 ≠ 0 := hnz 0 (Nat.succ_pos n)
    cases fuel with
    | zero => omega
    | succ f =>
      rw [backtraceWalk.eq_def, if_neg hne]
      dsimp only
      rw [ih f (rd mem ebp0)
        (by rw [← ebpChain_shift]; exact h0)
        (fun i hi => by rw [← ebpChain_shift]; exact hnz (i + 1) (by omega))
        (by omega)]
      rw [List.range_succ_eq_map]
      simp only [List.map_cons, List.map_map, List.flatten_cons]
      have hmap1 :
          List.map (fun i => readFrame mem (ebpChain mem (rd mem ebp0) i))
              (List.range n) =
            List.map ((fun i => readFrame mem (ebpChain mem ebp0 i)) ∘ Nat.succ)
              (List.range n) := by
        apply List.map_congr_left
        intro i _
        simp only [Function.comp, Nat.succ_eq_add_one]
        rw [ebpChain_shift]
      have hmap2 :
          List.map (fun i => frameReads (ebpChain mem (rd mem ebp0) i))
              (List.range n) =
            List.map ((fun i => frameReads (ebpChain mem ebp0 i)) ∘ Nat.succ)
              (List.range n) := by
        apply List.map_congr_left
        intro i _
        simp only [Function.comp, Nat.succ_eq_add_one]
        rw [ebpChain_shift]
      rw [hmap1, hmap2]
      rfl

/-! ## Dispatcher and read-loop lemmas -/

/-- `mon_showmappings` always returns 0 (`kern/monitor.c` line 130: the
single `return 0` at the end of every path). -/
theorem showmappingsMain_ret (walk : Nat → Option Nat) (argv : List String) :
    (showmappingsMain walk argv).ret = 0 := by
  rw [showmappingsMain.eq_def]
  split
  · rw [showmappingsRange]
    split
    · rfl
    · rfl
  · rfl

/-- `mon_help` returns 0 whenever it returns. -/
theorem mon_help_ret (env : Env) (argv : List String) (res : List Output × Int)
    (h : mon_help env argv = some res) : res.2 = 0 := by
  rw [mon_help] at h
  cases h
  rfl

/-- `mon_kerninfo` returns 0 whenever it returns. -/
theorem mon_kerninfo_ret (env : Env) (argv : List String) (res : List Output × Int)
    (h : mon_kerninfo env argv = some res) : res.2 = 0 := by
  rw [mon_kerninfo] at h
  cases h
  rfl

/-- `mon_backtrace` returns 0 whenever it returns. -/
theorem mon_backtrace_ret (env : Env) (argv : List String) (res : List Output × Int)
    (h : mon_backtrace env argv = some res) : res.2 = 0 := by
  rw [mon_backtrace] at h
  cases hbw : backtraceWalk env.mem env.btFuel (env.ebp0 % M32) with
  | none => rw [hbw] at h; cases h
  | some p =>
    obtain ⟨fs, rs⟩ := p
    rw [hbw] at h
    cases h
    rfl

/-- `mon_showmappings` returns 0 whenever it returns. -/
theorem mon_showmappings_ret (env : Env) (argv : List String)
    (res : List Output × Int) (h : mon_showmappings env argv = some res) :
    res.2 = 0 := by
  rw [mon_showmappings] at h
  cases h
  exact showmappingsMain_ret env.walk argv

/-- The linear table scan only returns table entries. -/
theorem findCommand_mem :
    ∀ (l : List Command) (s : String) (c : Command),
      findCommand s l = some c → c ∈ l := by
  intro l
  induction l with
  | nil => intro s c h; cases h
  | cons d ds ih =>
    intro s c h
    rw [findCommand] at h
    split_ifs at h with hs
    · cases h; exact List.mem_cons_self _ _
    · exact List.mem_cons_of_mem _ (ih s c h)

/-- `runcmd` returns 0 on every line on which it returns: each special
path returns 0 directly and every table handler returns 0. -/
theorem runcmd_ret_zero (env : Env) (buf : List Char)
    (res : List Output × Int) (h : runcmd env buf = some res) : res.2 = 0 := by
  rw [runcmd] at h
  cases hp : runcmdParse buf [] with
  | tooMany => rw [hp] at h; cases h; rfl
  | ok argv =>
    rw [hp] at h
    dsimp only at h
    cases argv with
    | nil => cases h; rfl
    | cons cmd rest =>
      rw [dispatchArgs.eq_def] at h
      dsimp only at h
      cases hf : findCommand cmd commands with
      | none => rw [hf] at h; cases h; rfl
      | some c =>
        rw [hf] at h
        dsimp only at h
        have hmem := findCommand_mem commands cmd c hf
        simp only [commands, List.mem_cons, List.not_mem_nil, or_false] at hmem
        rcases hmem with h1 | h1 | h1 | h1 <;> subst h1 <;> dsimp only at h
        · exact mon_help_ret env _ res h
        · exact mon_kerninfo_ret env _ res h
        · exact mon_backtrace_ret env _ res h
        · exact mon_showmappings_ret env _ res h

/-- The read loop can never take the `break`: no command line makes
`runcmd` return a negative value. -/
theorem monitorLoop_ne_exited (env : Env) :
    ∀ inputs, monitorLoop env inputs ≠ MonitorResult.exited := by
  intro inputs
  induction inputs with
  | nil => simp [monitorLoop]
  | cons o rest ih =>
    cases o with
    | none => rw [monitorLoop]; exact ih
    | some buf =>
      rw [monitorLoop]
      cases hr : runcmd env buf with
      | none => simp
      | some res =>
        obtain ⟨out, r⟩ := res
        have h0 : r = 0 := runcmd_ret_zero env buf (out, r) hr
        subst h0
        simpa using ih

/-! ## Claims -/

/-- C1: for every frame-pointer chain that reaches the zero sentinel after
`N` frames, `mon_backtrace` walks (and prints) exactly `N` frames, reading
for each frame with pointer `ebp` the return address at `ebp+4` and the
five raw argument words at `ebp+8`, `ebp+12`, `ebp+16`, `ebp+20`,
`ebp+24`; the walk stops as soon as the dereferenced frame pointer is
zero, and every memory read is one of the seven fixed offsets of one of
the `N` frames — nothing is read beyond the sentinel frame. -/
theorem c1_backtrace_frames (env : Env) (argv : List String) (N : Nat)
    (h0 : ebpChain env.mem (env.ebp0 % M32) N = 0)
    (hnz : ∀ i, i < N → ebpChain env.mem (env.ebp0 % M32) i ≠ 0)
    (hfuel : N ≤ env.btFuel) :
    backtraceWalk env.mem env.btFuel (env.ebp0 % M32) =
      some ((List.range N).map (fun i => readFrame env.mem (ebpChain env.mem (env.ebp0 % M32) i)),
        ((List.range N).map (fun i => frameReads (ebpChain env.mem (env.ebp0 % M32) i))).flatten) ∧
    ((List.range N).map (fun i => readFrame env.mem (ebpChain env.mem (env.ebp0 % M32) i))).length = N ∧
    (∀ a ∈ ((List.range N).map (fun i => frameReads (ebpChain env.mem (env.ebp0 % M32) i))).flatten,
      ∃ i, i < N ∧ a ∈ frameReads (ebpChain env.mem (env.ebp0 % M32) i)) ∧
    mon_backtrace env argv =
      some (Output.backtraceHeader ::
        (((List.range N).map (fun i => readFrame env.mem (ebpChain env.mem (env.ebp0 % M32) i))).map
          (frameOutput env.resolver)).flatten, 0) := by
  have hbw := backtraceWalk_spec env.mem N env.btFuel (env.ebp0 % M32) h0 hnz hfuel
  refine ⟨hbw, by simp, ?_, ?_⟩
  · intro a ha
    rw [List.mem_flatten] at ha
    obtain ⟨l, hl, hal⟩ := ha
    rw [List.mem_map] at hl
    obtain ⟨i, hi, rfl⟩ := hl
    exact ⟨i, List.mem_range.mp hi, hal⟩
  · rw [mon_backtrace, hbw]

/-- Witness for C1 on the concrete two-frame chain `4096 → 8192 → 0`. -/
theorem c1_backtrace_frames_witness :
    (ebpChain env0.mem (env0.ebp0 % M32) 2 = 0 ∧
      (∀ i, i < 2 → ebpChain env0.mem (env0.ebp0 % M32) i ≠ 0) ∧
      2 ≤ env0.btFuel) ∧
    (backtraceWalk env0.mem env0.btFuel (env0.ebp0 % M32) =
      some ((List.range 2).map (fun i => readFrame env0.mem (ebpChain env0.mem (env0.ebp0 % M32) i)),
        ((List.range 2).map (fun i => frameReads (ebpChain env0.mem (env0.ebp0 % M32) i))).flatten) ∧
    ((List.range 2).map (fun i => readFrame env0.mem (ebpChain env0.mem (env0.ebp0 % M32) i))).length = 2 ∧
    (∀ a ∈ ((List.range 2).map (fun i => frameReads (ebpChain env0.mem (env0.ebp0 % M32) i))).flatten,
      ∃ i, i < 2 ∧ a ∈ frameReads (ebpChain env0.mem (env0.ebp0 % M32) i)) ∧
    mon_backtrace env0 [] =
      some (Output.backtraceHeader ::
        (((List.range 2).map (fun i => readFrame env0.mem (ebpChain env0.mem (env0.ebp0 % M32) i))).map
          (frameOutput env0.resolver)).flatten, 0)) :=
  ⟨⟨by decide, by decide, by decide⟩,
    c1_backtrace_frames env0 [] 2 (by decide) (by decide) (by decide)⟩

/-- C5: for each backtrace frame, when the symbol resolver succeeds the
unwinder emits the file name, the line number, the function name bounded
by the resolver's reported length (it never reads past that length), and
the offset `eip - fn_addr`; when the resolver fails it emits the explicit
not-found marker instead. -/
theorem c5_symbol_lines (resolver : Nat → Option Eipdebuginfo) (f : Frame)
    (info : Eipdebuginfo) (hres : resolver f.eip = some info) :
    frameOutput resolver f =
      [Output.frameLine f.ebp f.eip f.arg1 f.arg2 f.arg3 f.arg4 f.arg5,
       Output.symLoc info.eip_file info.eip_line,
       Output.symName (String.mk (List.take info.eip_fn_namelen info.eip_fn_name.data)),
       Output.symOffset ((f.eip + M32 - info.eip_fn_addr) % M32)] ∧
    (String.mk (List.take info.eip_fn_namelen info.eip_fn_name.data)).length ≤
      info.eip_fn_namelen ∧
    (info.eip_fn_addr ≤ f.eip → f.eip < M32 →
      (f.eip + M32 - info.eip_fn_addr) % M32 = f.eip - info.eip_fn_addr) ∧
    (∀ r2 : Nat → Option Eipdebuginfo, r2 f.eip = none →
      frameOutput r2 f =
        [Output.frameLine f.ebp f.eip f.arg1 f.arg2 f.arg3 f.arg4 f.arg5,
         Output.symNotFound]) := by
  refine ⟨by rw [frameOutput, hres], ?_, ?_, ?_⟩
  · show (List.take info.eip_fn_namelen info.eip_fn_name.data).length ≤ _
    rw [List.length_take]
    exact Nat.min_le_left _ _
  · intro h1 h2
    simp only [M32] at *
    omega
  · intro r2 h2
    rw [frameOutput, h2]

/-- Witness for C5 with a concrete resolver, frame and record. -/
theorem c5_symbol_lines_witness :
    (res0 frame0.eip = some info0 ∧ info0.eip_fn_addr ≤ frame0.eip ∧
      frame0.eip < M32 ∧
      (fun _ => none : Nat → Option Eipdebuginfo) frame0.eip = none) ∧
    (frameOutput res0 frame0 =
      [Output.frameLine frame0.ebp frame0.eip frame0.arg1 frame0.arg2
        frame0.arg3 frame0.arg4 frame0.arg5,
       Output.symLoc info0.eip_file info0.eip_line,
       Output.symName (String.mk (List.take info0.eip_fn_namelen info0.eip_fn_name.data)),
       Output.symOffset ((frame0.eip + M32 - info0.eip_fn_addr) % M32)] ∧
     (frame0.eip + M32 - info0.eip_fn_addr) % M32 = frame0.eip - info0.eip_fn_addr ∧
     frameOutput (fun _ => none) frame0 =
      [Output.frameLine frame0.ebp frame0.eip frame0.arg1 frame0.arg2
        frame0.arg3 frame0.arg4 frame0.arg5,
       Output.symNotFound]) :=
  ⟨⟨rfl, by decide, by decide, rfl⟩,
   (c5_symbol_lines res0 frame0 info0 rfl).1,
   (c5_symbol_lines res0 frame0 info0 rfl).2.2.1 (by decide) (by decide),
   (c5_symbol_lines res0 frame0 info0 rfl).2.2.2 _ rfl⟩

/-- C2 (amended): for every `showmappings` invocation with `argc == 3`
and parsed values `end ≥ start` whose byte span `end - start + 1` is at
most `2^31 - PGSIZE` (so the rounded span fits a positive signed `int`;
larger spans overflow the signed page count and issue no queries), the
inspector calls the read-only page-table-walk primitive once per page of
the range, at `start`, `start + PGSIZE`, … in ascending virtual-address
order, the total number of calls being the byte span rounded up to whole
pages divided by the page size; in particular `showmappings 0x0 0xFFF`
issues exactly one query. -/
theorem c2_walk_calls (walk : Nat → Option Nat) (cmd a1 a2 : String)
    (s e : Nat) (hs : s = strtol16 a1 % M32) (he : e = strtol16 a2 % M32)
    (hse : s ≤ e) (hsmall : e - s + 1 ≤ 2 ^ 31 - PGSIZE) :
    (showmappingsMain walk [cmd, a1, a2]).walkCalls =
      (List.range ((e - s + 1 + (PGSIZE - 1)) / PGSIZE)).map
        (fun i => s + i * PGSIZE) ∧
    (showmappingsMain walk [cmd, a1, a2]).walkCalls.length =
      (e - s + 1 + (PGSIZE - 1)) / PGSIZE ∧
    List.Pairwise (· < ·) (showmappingsMain walk [cmd, a1, a2]).walkCalls := by
  have heM : e < M32 := by rw [he]; exact Nat.mod_lt _ (by norm_num [M32])
  have hmain : showmappingsMain walk [cmd, a1, a2] = showmappingsRange walk s e := by
    rw [hs, he]; rfl
  have hcalls : (showmappingsMain walk [cmd, a1, a2]).walkCalls =
      (List.range ((e - s + 1 + (PGSIZE - 1)) / PGSIZE)).map
        (fun i => s + i * PGSIZE) := by
    rw [hmain, showmappingsRange, if_neg (Nat.not_lt.mpr hse)]
    show (showmappingsLoop walk s (npagesOf s e).toNat).2 = _
    rw [npagesOf_eq s e hse heM hsmall, Int.toNat_natCast]
    apply showmappingsLoop_calls
    intro i hi
    have h2 : e < 4294967296 := by simpa [M32] using heM
    have h3 : e - s + 1 ≤ 2147479552 := by
      have h4 := hsmall
      simp only [PGSIZE] at h4
      norm_num at h4
      exact h4
    clear hs he hsmall heM hmain
    simp only [PGSIZE, M32] at hi ⊢
    omega
  refine ⟨hcalls, by rw [hcalls]; simp, ?_⟩
  rw [hcalls, List.pairwise_map]
  apply (List.pairwise_lt_range _).imp
  intro a b hab
  simp only [PGSIZE]
  omega

/-- C2 counterexample: for start `0` and end `0x7FFFFFFF` (both parsed,
`end ≥ start`), the claim as stated predicts `2^31 / PGSIZE = 524288`
page-table queries, but the page count overflows the signed `int` and the
command issues none. -/
theorem c2_walk_calls_cex :
    strtol16 "0" % M32 ≤ strtol16 "7FFFFFFF" % M32 ∧
    (strtol16 "7FFFFFFF" % M32 - strtol16 "0" % M32 + 1 + (PGSIZE - 1)) / PGSIZE =
      524288 ∧
    (showmappingsMain (fun _ => none)
      ["showmappings", "0", "7FFFFFFF"]).walkCalls.length = 0 ∧
    (showmappingsMain (fun _ => none)
      ["showmappings", "0", "7FFFFFFF"]).walkCalls.length ≠
      (strtol16 "7FFFFFFF" % M32 - strtol16 "0" % M32 + 1 + (PGSIZE - 1)) / PGSIZE :=
  ⟨by decide, by decide, by decide, by decide⟩

/-- Witness for C2 on `showmappings 0x0 0xFFF`: exactly one page-table
query, at virtual address 0. -/
theorem c2_walk_calls_witness :
    ((0 : Nat) = strtol16 "0x0" % M32 ∧ (4095 : Nat) = strtol16 "0xFFF" % M32 ∧
      (0 : Nat) ≤ 4095 ∧ 4095 - 0 + 1 ≤ 2 ^ 31 - PGSIZE) ∧
    ((showmappingsMain (fun _ => none) ["showmappings", "0x0", "0xFFF"]).walkCalls =
      (List.range ((4095 - 0 + 1 + (PGSIZE - 1)) / PGSIZE)).map
        (fun i => 0 + i * PGSIZE) ∧
     (showmappingsMain (fun _ => none) ["showmappings", "0x0", "0xFFF"]).walkCalls.length =
      (4095 - 0 + 1 + (PGSIZE - 1)) / PGSIZE ∧
     List.Pairwise (· < ·)
      (showmappingsMain (fun _ => none) ["showmappings", "0x0", "0xFFF"]).walkCalls) :=
  ⟨⟨by decide, by decide, by decide, by decide⟩,
    c2_walk_calls (fun _ => none) "showmappings" "0x0" "0xFFF" 0 4095
      (by decide) (by decide) (by decide) (by decide)⟩

/-- C3: `showmappings` invoked with `argc == 3` and parsed end strictly
below parsed start reports the range error, calls the page-table-walk
primitive zero times, and produces no per-page output. -/
theorem c3_end_lt_start (walk : Nat → Option Nat) (cmd a1 a2 : String)
    (h : strtol16 a2 % M32 < strtol16 a1 % M32) :
    showmappingsMain walk [cmd, a1, a2] = ⟨[Output.errEndLtStart], [], 0⟩ := by
  show showmappingsRange walk _ _ = _
  rw [showmappingsRange, if_pos h]

/-- Witness for C3 on `showmappings 2 1`. -/
theorem c3_end_lt_start_witness :
    strtol16 "1" % M32 < strtol16 "2" % M32 ∧
    showmappingsMain (fun _ => none) ["showmappings", "2", "1"] =
      ⟨[Output.errEndLtStart], [], 0⟩ :=
  ⟨by decide, c3_end_lt_start (fun _ => none) "showmappings" "2" "1" (by decide)⟩

/-- C4 (amended): the parser aborts with the too-many-arguments error —
dispatching no command and returning 0 — exactly when the line holds 16 or
more whitespace-separated tokens (`MAXARGS`, with one `argv` slot reserved
for the terminator, leaves room for only 15); a line with at most 15
tokens is tokenized completely and dispatched. -/
theorem c4_token_limit (env : Env) (buf : List Char) :
    runcmd env buf =
      if MAXARGS ≤ (specTokens buf).length then some ([Output.tooManyArgs], 0)
      else dispatchArgs env (specTokens buf) := by
  rw [runcmd, runcmdParse_eq buf [] (by simp [MAXARGS])]
  simp only [List.length_nil, Nat.zero_add, List.nil_append]
  split_ifs <;> rfl

/-- C4 counterexample: a line of exactly 16 tokens — within the claimed
limit of "at most 16" — is nevertheless rejected with the
too-many-arguments error and dispatches nothing. -/
theorem c4_token_limit_cex :
    (specTokens "a b c d e f g h i j k l m n o p".data).length ≤ 16 ∧
    runcmd env0 "a b c d e f g h i j k l m n o p".data =
      some ([Output.tooManyArgs], 0) ∧
    runcmd env0 "a b c d e f g h i j k l m n o p".data ≠
      dispatchArgs env0 (specTokens "a b c d e f g h i j k l m n o p".data) := by
  have htok : specTokens "a b c d e f g h i j k l m n o p".data =
      ["a", "b", "c", "d", "e", "f", "g", "h", "i", "j", "k", "l", "m", "n",
       "o", "p"] := by
    simp +decide [specTokens]
  have hparse : runcmdParse "a b c d e f g h i j k l m n o p".data [] =
      ParseResult.tooMany := by
    simp +decide [runcmdParse]
  refine ⟨by rw [htok]; decide, by rw [runcmd, hparse], ?_⟩
  rw [runcmd, hparse, htok]
  decide

/-- C6: whenever the tokenizer completes, the collected `argv` is exactly
the whitespace-run splitting of the line — leading, trailing and interior
runs act as single separators and zero-length arguments never occur — and
tokenizing `"  showmappings   0x1000 0x2000  "` yields `argc = 3` with
`argv = ["showmappings", "0x1000", "0x2000"]`. -/
theorem c6_tokenizer (cs : List Char) (argv : List String)
    (h : runcmdParse cs [] = ParseResult.ok argv) :
    argv = specTokens cs ∧ (∀ t ∈ argv, t ≠ "") ∧
    runcmdParse "  showmappings   0x1000 0x2000  ".data [] =
      ParseResult.ok ["showmappings", "0x1000", "0x2000"] := by
  have hq := runcmdParse_eq cs [] (by simp [MAXARGS])
  rw [h] at hq
  by_cases h1 : MAXARGS ≤ ([] : List String).length + (specTokens cs).length
  · rw [if_pos h1] at hq
    cases hq
  · rw [if_neg h1] at hq
    injection hq with hq2
    subst hq2
    simp only [List.nil_append]
    refine ⟨trivial, fun t ht => specTokens_ne_empty cs t ht, ?_⟩
    simp +decide [runcmdParse]

/-- Witness for C6 on the example line. -/
theorem c6_tokenizer_witness :
    runcmdParse "  showmappings   0x1000 0x2000  ".data [] =
      ParseResult.ok ["showmappings", "0x1000", "0x2000"] ∧
    (["showmappings", "0x1000", "0x2000"] =
      specTokens "  showmappings   0x1000 0x2000  ".data ∧
     (∀ t ∈ (["showmappings", "0x1000", "0x2000"] : List String), t ≠ "") ∧
     runcmdParse "  showmappings   0x1000 0x2000  ".data [] =
      ParseResult.ok ["showmappings", "0x1000", "0x2000"]) := by
  have h : runcmdParse "  showmappings   0x1000 0x2000  ".data [] =
      ParseResult.ok ["showmappings", "0x1000", "0x2000"] := by
    simp +decide [runcmdParse]
  exact ⟨h, c6_tokenizer _ _ h⟩

/-- C7: the monitor read loop `break`s exactly when the processed line's
`runcmd` returns a negative value; on a zero or positive return it
continues with the next line. -/
theorem c7_loop_contract (env : Env) (buf : List Char)
    (rest : List (Option (List Char))) (out : List Output) (r : Int)
    (h : runcmd env buf = some (out, r)) :
    monitorLoop env (some buf :: rest) =
      if r < 0 then MonitorResult.exited else monitorLoop env rest := by
  rw [monitorLoop, h]

/-- Witness for C7: on the unknown-command line `x`, `runcmd` returns 0
and the loop continues. -/
theorem c7_loop_contract_witness :
    runcmd env0 "x".data = some ([Output.unknownCmd "x"], 0) ∧
    monitorLoop env0 [some "x".data] =
      if (0 : Int) < 0 then MonitorResult.exited else monitorLoop env0 [] := by
  have h : runcmd env0 "x".data = some ([Output.unknownCmd "x"], 0) := by
    have hp : runcmdParse "x".data [] = ParseResult.ok ["x"] := by
      simp +decide [runcmdParse]
    rw [runcmd, hp]
    decide
  exact ⟨h, c7_loop_contract env0 _ [] _ 0 h⟩

/-- C8: `showmappings` parses its two arguments in base 16 through the
parsing collaborator; an argument that is not valid hexadecimal text is
silently taken as zero — no error is reported and the command proceeds
exactly as if `0` had been supplied in its place. -/
theorem c8_malformed_parses_zero (walk : Nat → Option Nat) (cmd a1 a2 : String) :
    (∀ s : String, validHex16 s = false → strtol16 s = 0) ∧
    (validHex16 a1 = false →
      showmappingsMain walk [cmd, a1, a2] = showmappingsMain walk [cmd, "0", a2]) ∧
    (validHex16 a2 = false →
      showmappingsMain walk [cmd, a1, a2] = showmappingsMain walk [cmd, a1, "0"]) := by
  have hz : ∀ s : String, validHex16 s = false → strtol16 s = 0 := by
    intro s hs
    simp [strtol16, hs]
  refine ⟨hz, ?_, ?_⟩
  · intro h1
    show showmappingsRange walk (strtol16 a1 % M32) (strtol16 a2 % M32) =
      showmappingsRange walk (strtol16 "0" % M32) (strtol16 a2 % M32)
    rw [hz a1 h1, show strtol16 "0" = 0 from rfl]
  · intro h2
    show showmappingsRange walk (strtol16 a1 % M32) (strtol16 a2 % M32) =
      showmappingsRange walk (strtol16 a1 % M32) (strtol16 "0" % M32)
    rw [hz a2 h2, show strtol16 "0" = 0 from rfl]

/-- Witness for C8 on the malformed arguments `"xyz"` and `"GG!"`. -/
theorem c8_malformed_parses_zero_witness :
    (validHex16 "xyz" = false ∧ validHex16 "GG!" = false ∧
      strtol16 "xyz" = 0) ∧
    showmappingsMain (fun _ => none) ["showmappings", "xyz", "0xFFF"] =
      showmappingsMain (fun _ => none) ["showmappings", "0", "0xFFF"] ∧
    showmappingsMain (fun _ => none) ["showmappings", "0x10", "GG!"] =
      showmappingsMain (fun _ => none) ["showmappings", "0x10", "0"] :=
  ⟨⟨by decide, by decide, by decide⟩,
   (c8_malformed_parses_zero (fun _ => none) "showmappings" "xyz" "0xFFF").2.1
     (by decide),
   (c8_malformed_parses_zero (fun _ => none) "showmappings" "0x10" "GG!").2.2
     (by decide)⟩

/-- C9: the four handlers of the registered command table all return 0
whenever they return, and `runcmd` returns 0 on the empty-line,
too-many-arguments and unknown-command paths as well — so `runcmd`
returns exactly 0 on every line and the monitor loop can never terminate
through a command, even though the dispatcher honors the negative-return
exit contract. -/
theorem c9_always_zero :
    commands.map Command.func =
      [mon_help, mon_kerninfo, mon_backtrace, mon_showmappings] ∧
    (∀ (env : Env) (argv : List String) (res : List Output × Int),
      (mon_help env argv = some res → res.2 = 0) ∧
      (mon_kerninfo env argv = some res → res.2 = 0) ∧
      (mon_backtrace env argv = some res → res.2 = 0) ∧
      (mon_showmappings env argv = some res → res.2 = 0)) ∧
    (∀ (env : Env) (buf : List Char) (res : List Output × Int),
      runcmd env buf = some res → res.2 = 0) ∧
    (∀ (env : Env) (inputs : List (Option (List Char))),
      monitorLoop env inputs ≠ MonitorResult.exited) :=
  ⟨rfl,
   fun env argv res =>
     ⟨mon_help_ret env argv res, mon_kerninfo_ret env argv res,
      mon_backtrace_ret env argv res, mon_showmappings_ret env argv res⟩,
   runcmd_ret_zero, monitorLoop_ne_exited⟩

/-- Witness for C9: each handler evaluated at the concrete environment
returns 0, `runcmd` on the `help` line returns 0, and the loop on that
line does not exit. -/
theorem c9_always_zero_witness :
    (mon_help env0 ["help"] =
        some ([Output.helpLine "help" "Display this list of commands",
          Output.helpLine "kerninfo" "Display information about the kernel",
          Output.helpLine "backtrace" "Display the stack backtrace",
          Output.helpLine "showmappings" "Show the mappings info"], 0) ∧
      mon_kerninfo env0 [] =
        some ([Output.kerninfoHeader, Output.kerninfoStart 0,
          Output.kerninfoSym 0 0, Output.kerninfoSym 0 0,
          Output.kerninfoSym 0 0, Output.kerninfoSym 0 0,
          Output.kerninfoFootprint 0], 0) ∧
      mon_backtrace env0 [] =
        some ([Output.backtraceHeader,
          Output.frameLine 4096 0 0 0 0 0 0, Output.symNotFound,
          Output.frameLine 8192 0 0 0 0 0 0, Output.symNotFound], 0) ∧
      mon_showmappings env0 ["showmappings", "0", "0"] =
        some ([Output.notMappedLine 0], 0) ∧
      runcmd env0 "help".data =
        some ([Output.helpLine "help" "Display this list of commands",
          Output.helpLine "kerninfo" "Display information about the kernel",
          Output.helpLine "backtrace" "Display the stack backtrace",
          Output.helpLine "showmappings" "Show the mappings info"], 0)) ∧
    ((0 : Int) = 0 ∧ (0 : Int) = 0 ∧ (0 : Int) = 0 ∧ (0 : Int) = 0 ∧
      (0 : Int) = 0 ∧
      monitorLoop env0 [some "help".data] ≠ MonitorResult.exited) := by
  have hh : mon_help env0 ["help"] =
      some ([Output.helpLine "help" "Display this list of commands",
        Output.helpLine "kerninfo" "Display information about the kernel",
        Output.helpLine "backtrace" "Display the stack backtrace",
        Output.helpLine "showmappings" "Show the mappings info"], 0) := by decide
  have hk : mon_kerninfo env0 [] =
      some ([Output.kerninfoHeader, Output.kerninfoStart 0,
        Output.kerninfoSym 0 0, Output.kerninfoSym 0 0,
        Output.kerninfoSym 0 0, Output.kerninfoSym 0 0,
        Output.kerninfoFootprint 0], 0) := by decide
  have hb : mon_backtrace env0 [] =
      some ([Output.backtraceHeader,
        Output.frameLine 4096 0 0 0 0 0 0, Output.symNotFound,
        Output.frameLine 8192 0 0 0 0 0 0, Output.symNotFound], 0) := by decide
  have hs : mon_showmappings env0 ["showmappings", "0", "0"] =
      some ([Output.notMappedLine 0], 0) := by decide
  have hr : runcmd env0 "help".data =
      some ([Output.helpLine "help" "Display this list of commands",
        Output.helpLine "kerninfo" "Display information about the kernel",
        Output.helpLine "backtrace" "Display the stack backtrace",
        Output.helpLine "showmappings" "Show the mappings info"], 0) := by
    have hp : runcmdParse "help".data [] = ParseResult.ok ["help"] := by
      simp +decide [runcmdParse]
    rw [runcmd, hp]
    decide
  exact ⟨⟨hh, hk, hb, hs, hr⟩,
    (c9_always_zero.2.1 env0 ["help"] _).1 hh,
    (c9_always_zero.2.1 env0 [] _).2.1 hk,
    (c9_always_zero.2.1 env0 [] _).2.2.1 hb,
    (c9_always_zero.2.1 env0 ["showmappings", "0", "0"] _).2.2.2 hs,
    c9_always_zero.2.2.1 env0 "help".data _ hr,
    c9_always_zero.2.2.2 env0 [some "help".data]⟩

/-- C10: for every range with parsed `end ≥ start` whose byte span
`end - start + 1` is at least `2^31` bytes (for example start `0x0`, end
`0xFFFFFFFF`, where the 32-bit span wraps to 0), the page count stored in
the signed `int` is zero or negative, so `mon_showmappings` issues no
page-table queries and prints no per-page lines instead of covering the
span. -/
theorem c10_span_overflow (walk : Nat → Option Nat) (cmd a1 a2 : String)
    (s e : Nat) (hs : s = strtol16 a1 % M32) (he : e = strtol16 a2 % M32)
    (hse : s ≤ e) (hbig : 2 ^ 31 ≤ e - s + 1) :
    npagesOf s e ≤ 0 ∧
    showmappingsMain walk [cmd, a1, a2] = ⟨[], [], 0⟩ := by
  have heM : e < M32 := by rw [he]; exact Nat.mod_lt _ (by norm_num [M32])
  have hnp := npagesOf_nonpos s e hse heM hbig
  refine ⟨hnp, ?_⟩
  have hmain : showmappingsMain walk [cmd, a1, a2] = showmappingsRange walk s e := by
    rw [hs, he]; rfl
  rw [hmain, showmappingsRange, if_neg (Nat.not_lt.mpr hse)]
  rw [Int.toNat_eq_zero.mpr hnp]
  rfl

/-- Witness for C10 on `showmappings 0 FFFFFFFF`: the span wraps, the page
count is 0, and no page is inspected. -/
theorem c10_span_overflow_witness :
    ((0 : Nat) = strtol16 "0" % M32 ∧
      (4294967295 : Nat) = strtol16 "FFFFFFFF" % M32 ∧
      (0 : Nat) ≤ 4294967295 ∧ 2 ^ 31 ≤ 4294967295 - 0 + 1) ∧
    (npagesOf 0 4294967295 ≤ 0 ∧
      showmappingsMain (fun _ => none) ["showmappings", "0", "FFFFFFFF"] =
        ⟨[], [], 0⟩) :=
  ⟨⟨by decide, by decide, by decide, by decide⟩,
    c10_span_overflow (fun _ => none) "showmappings" "0" "FFFFFFFF"
      0 4294967295 (by decide) (by decide) (by decide) (by decide)⟩

end Monitor
